import Mathlib

set_option maxRecDepth 8192
set_option maxHeartbeats 1600000

/-!
# Verification of the homelab-updator deployment pipeline

Shallow embedding of `src/deploy-script.sh` (the webhook-triggered deploy
script; the file holds two evolutions of the script, a newer one and an
older one) and of the claims of the specification against it.

External tools invoked by the script (curl/wget, `file`, gzip, tar, npm,
pm2/systemctl/docker-compose) are modelled by boolean/string inputs
recording their observable outcome for the run; the script's own control
flow — the order of checks, which failures abort (`exit 1` after
`cleanup`, or the `set -e`/`trap ERR` path which also runs `cleanup`) and
which merely log a warning — is translated faithfully from the source.
-/

namespace HomelabUpdator

/-- A top-level entry of the extraction destination directory:
its name and whether it is a directory. -/
structure Entry where
  name : String
  isDir : Bool
  deriving DecidableEq, Repr

/-- Newer script, line 252: `EXTRACTED_DIR="$TEMP_DIR/extracted"`.
The content root is the extraction destination itself, unconditionally —
the entries of the destination are never inspected. -/
def resolvedContentRootNew (destDir : String) (_entries : List Entry) : String :=
  destDir

/-- Older script, line 546:
`EXTRACTED_DIR=$(find "$TEMP_DIR" -mindepth 1 -maxdepth 1 -type d | head -n 1)`.
The content root is the first top-level directory under the temp dir
(`none` when there is no directory at all, which the script then treats
as "Could not find extracted directory" and aborts). -/
def resolvedContentRootOld (tempDir : String) (entries : List Entry) : Option String :=
  (entries.filter (·.isDir)).head?.map (fun e => tempDir ++ "/" ++ e.name)

/-- Modelled from the spec's words (for comparison only): if the
destination contains exactly one entry and that entry is a directory,
the content root is that subdirectory; otherwise the destination itself. -/
def resolvedContentRootSpec (destDir : String) (entries : List Entry) : String :=
  match entries with
  | [e] => if e.isDir then destDir ++ "/" ++ e.name else destDir
  | _ => destDir

/-- A deployment request: the two inputs the webhook receiver passes to
the deploy script (`TARBALL_URL="$1"`, `TAG_NAME="$2"`, lines 19-20). -/
structure DeploymentRequest where
  artifactUrl : String
  releaseTag : String
  deriving DecidableEq, Repr

/-- Line 15: `TEMP_DIR="/tmp/deploy-${APP_NAME}"` as a function of the
application name. -/
def TEMP_DIR (appName : String) : String :=
  "/tmp/deploy-" ++ appName

/-- The scratch-workspace root used by one run for a given application:
line 15 derives it from `APP_NAME` alone; nothing about the request
(URL, tag) or the run enters the path. -/
def scratchRoot (appName : String) (_req : DeploymentRequest) : String :=
  TEMP_DIR appName

/-- The hard-coded application name of the script (line 11). -/
def APP_NAME : String := "local-chat"

/-- ASCII lower-casing of one character (what `grep -i` ignores). -/
def lowerAscii (c : Char) : Char :=
  if 'A' ≤ c ∧ c ≤ 'Z' then Char.ofNat (c.toNat + 32) else c

/-- `pat` is a prefix of `l` (character lists). -/
def startsWithChars : List Char → List Char → Bool
  | [], _ => true
  | _ :: _, [] => false
  | p :: ps, c :: cs => p == c && startsWithChars ps cs

/-- `pat` occurs as a contiguous sublist of `l`. -/
def listOccurs (pat : List Char) : List Char → Bool
  | [] => pat.isEmpty
  | c :: cs => startsWithChars pat (c :: cs) || listOccurs pat cs

/-- Case-insensitive substring test, as performed by `grep -qi`. -/
def containsInsensitive (s pat : String) : Bool :=
  listOccurs (pat.data.map lowerAscii) (s.data.map lowerAscii)

/-- Line 177: `echo "$FILE_TYPE" | grep -qi "gzip\x5c|compressed"` — the
sniff passes when the `file -b` description contains "gzip" or
"compressed", case-insensitively. -/
def typeSniffPasses (fileTypeDesc : String) : Bool :=
  containsInsensitive fileTypeDesc "gzip" || containsInsensitive fileTypeDesc "compressed"

/-- The gzip magic signature: a byte stream beginning 0x1f 0x8b. -/
def isGzipSignature (bytes : List Nat) : Bool :=
  match bytes with
  | b0 :: b1 :: _ => b0 == 0x1f && b1 == 0x8b
  | _ => false

/-- `ls -t` over the backup archives: newest (largest timestamp) first. -/
def lsByTimeDesc (backups : List Nat) : List Nat :=
  List.insertionSort (· ≥ ·) backups

/-- Line 282: `ls -t ..._backup_*.tar.gz | tail -n +6 | xargs -r rm` —
the archives that remain are the first five of the newest-first listing. -/
def keptBackups (backups : List Nat) : List Nat :=
  (lsByTimeDesc backups).take 5

/-- The archives deleted by the pruning command (positions six onward of
the newest-first listing). -/
def removedBackups (backups : List Nat) : List Nat :=
  (lsByTimeDesc backups).drop 5

/-- The supervisor capability matched by the priority probe of the
restart block (lines 350-374): pm2, then a systemd unit, then a
docker-compose file. -/
inductive SupervisorKind
  | pm2
  | systemd
  | dockerCompose
  deriving DecidableEq, Repr

/-- The stages of one deployment run, in the order `main` performs them. -/
inductive Stage
  | argCheck
  | download
  | sizeCheck
  | typeCheck
  | integrityCheck
  | extraction
  | backup
  | stopApp
  | clearDir
  | install
  | deps
  | migrate
  | restart
  | health
  deriving DecidableEq, Repr

/-- Terminal state of a run: success, or a fatal error at some stage. -/
inductive Outcome
  | success
  | failedAt (s : Stage)
  deriving DecidableEq, Repr

/-- All inputs that determine one run of the newer script's `main`:
the request, and the observable outcomes of every external tool the
script invokes. -/
structure RunInput where
  request : DeploymentRequest
  /-- curl or wget is installed (lines 105/119). -/
  transportAvailable : Bool
  /-- the download command exited 0. -/
  downloadOk : Bool
  /-- content of the downloaded `release.tar.gz`; its length is what
  `stat` reports at line 150. -/
  fileBytes : List Nat
  /-- output of `file -b` on the downloaded file (line 171). -/
  fileTypeDesc : String
  /-- gzip is installed (line 192). -/
  gzipAvailable : Bool
  /-- `gzip -t` exited 0 (line 193). -/
  gzipTestOk : Bool
  /-- tar extraction exited 0 (lines 211-216). -/
  tarOk : Bool
  /-- top-level entries of the extraction destination. -/
  extractedEntries : List Entry
  /-- the live project directory is empty (line 275 `ls -A` test). -/
  liveDirEmpty : Bool
  /-- the backup tar command exited 0 (line 279). -/
  backupOk : Bool
  /-- timestamp of the backup this run would create (line 277). -/
  backupTimestamp : Nat
  /-- timestamps of the backup archives already in the backup dir. -/
  priorBackups : List Nat
  /-- the `cp -r` of new files exited 0 (line 306). -/
  copyOk : Bool
  /-- a package.json exists in the content root (line 329). -/
  hasPackageJson : Bool
  /-- `npm ci` or the fallback `npm install` exited 0 (line 330). -/
  npmOk : Bool
  /-- package.json declares a migrate script (line 341). -/
  hasMigrateScript : Bool
  /-- `npm run migrate` exited 0 (line 343). -/
  migrateOk : Bool
  /-- which supervisor branch of lines 350-374 matches, if any. -/
  supervisorMatch : Option SupervisorKind
  /-- the matched supervisor's restart/start commands exited 0. -/
  supervisorOk : Bool
  /-- some health probe of lines 382-390 succeeded. -/
  healthOk : Bool
  deriving Repr

/-- Observable result of one run: terminal outcome, process exit code,
whether `TEMP_DIR` is gone afterwards, the stages that were entered,
whether a backup archive was produced, the backup archives remaining in
the backup directory, and the warnings logged. -/
structure RunResult where
  outcome : Outcome
  exitCode : Nat
  tempDirRemoved : Bool
  stages : List Stage
  backupProduced : Bool
  remainingBackups : List Nat
  warnings : List String
  deriving Repr

/-- The warning of line 373. -/
def noSupervisorWarning : String :=
  "No process manager detected. Please start the application manually."

/-- The warning of line 279. -/
def backupWarning : String := "Backup creation had warnings"

/-- The warning of line 343. -/
def migrateWarning : String := "Migration failed"

/-- The warning of line 393. -/
def healthWarning : String := "Health check could not verify application is running"

/-- Lines 274-286: whether the backup block runs (live dir non-empty). -/
def backupAttempted (i : RunInput) : Bool := !i.liveDirEmpty

/-- Warning emitted by the backup block (line 279's `|| warning`). -/
def backupWarns (i : RunInput) : List String :=
  if backupAttempted i && !i.backupOk then [backupWarning] else []

/-- Backup archives left in the backup directory after the backup block:
when a backup is attempted, the new archive joins the prior ones and the
pruning of line 282 runs; otherwise the directory is untouched. -/
def remainingAfterBackup (i : RunInput) : List Nat :=
  if backupAttempted i then keptBackups (i.backupTimestamp :: i.priorBackups)
  else i.priorBackups

/-- Warnings accumulated up to and including the migrate step
(lines 341-344: `npm run migrate || warning`). -/
def postInstallWarns (i : RunInput) : List String :=
  backupWarns i ++ (if i.hasMigrateScript && !i.migrateOk then [migrateWarning] else [])

/-- The stage list of a run that reaches the health check. -/
def allStages : List Stage :=
  [.argCheck, .download, .sizeCheck, .typeCheck, .integrityCheck,
   .extraction, .backup, .stopApp, .clearDir, .install, .deps,
   .migrate, .restart, .health]

/-- Warning emitted by the health check when no probe succeeds
(lines 392-394). -/
def healthWarns (i : RunInput) : List String :=
  if i.healthOk then [] else [healthWarning]

/-- One run of the newer script's `main` (lines 82-404), with the
`trap ERR`/`trap EXIT` handlers of lines 407-410. Every abort path calls
`cleanup` (explicitly, or through the traps) before exiting 1, so
`tempDirRemoved` is true in every branch. Fatal stages stop the run;
warning-only failures (backup, migrate, health, missing supervisor) let
it continue, exactly as in the source. -/
def runDeploy (i : RunInput) : RunResult :=
  -- lines 93-97: both arguments must be non-empty
  if i.request.artifactUrl = "" ∨ i.request.releaseTag = "" then
    { outcome := .failedAt .argCheck, exitCode := 1, tempDirRemoved := true,
      stages := [.argCheck], backupProduced := false,
      remainingBackups := i.priorBackups, warnings := [] }
  -- lines 105-137: download; no curl/wget, or a failed download, aborts
  else if i.transportAvailable = false ∨ i.downloadOk = false then
    { outcome := .failedAt .download, exitCode := 1, tempDirRemoved := true,
      stages := [.argCheck, .download], backupProduced := false,
      remainingBackups := i.priorBackups, warnings := [] }
  -- lines 150-168: minimum-size check
  else if i.fileBytes.length < 1024 then
    { outcome := .failedAt .sizeCheck, exitCode := 1, tempDirRemoved := true,
      stages := [.argCheck, .download, .sizeCheck], backupProduced := false,
      remainingBackups := i.priorBackups, warnings := [] }
  -- lines 171-189: type sniff on the `file -b` description
  else if typeSniffPasses i.fileTypeDesc = false then
    { outcome := .failedAt .typeCheck, exitCode := 1, tempDirRemoved := true,
      stages := [.argCheck, .download, .sizeCheck, .typeCheck],
      backupProduced := false,
      remainingBackups := i.priorBackups, warnings := [] }
  -- lines 192-201: gzip integrity test, only when gzip is installed
  else if i.gzipAvailable = true ∧ i.gzipTestOk = false then
    { outcome := .failedAt .integrityCheck, exitCode := 1, tempDirRemoved := true,
      stages := [.argCheck, .download, .sizeCheck, .typeCheck, .integrityCheck],
      backupProduced := false,
      remainingBackups := i.priorBackups, warnings := [] }
  -- lines 207-240: tar extraction
  else if i.tarOk = false then
    { outcome := .failedAt .extraction, exitCode := 1, tempDirRemoved := true,
      stages := [.argCheck, .download, .sizeCheck, .typeCheck, .integrityCheck,
                 .extraction],
      backupProduced := false,
      remainingBackups := i.priorBackups, warnings := [] }
  -- lines 274-286: backup block — attempted only when the live dir is
  -- non-empty; a failing tar is `|| warning`, and pruning runs after.
  -- lines 288-296: stop — every stop command is `|| warning`.
  -- lines 299-302: clear — `rm -rf` (with -f) cannot fail on missing files.
  -- lines 304-310: copy — failure aborts with cleanup and exit 1
  else if i.copyOk = false then
    { outcome := .failedAt .install, exitCode := 1, tempDirRemoved := true,
      stages := [.argCheck, .download, .sizeCheck, .typeCheck, .integrityCheck,
                 .extraction, .backup, .stopApp, .clearDir, .install],
      backupProduced := backupAttempted i,
      remainingBackups := remainingAfterBackup i, warnings := backupWarns i }
  -- lines 329-338: npm ci / npm install — failure of both aborts
  else if i.hasPackageJson = true ∧ i.npmOk = false then
    { outcome := .failedAt .deps, exitCode := 1, tempDirRemoved := true,
      stages := [.argCheck, .download, .sizeCheck, .typeCheck, .integrityCheck,
                 .extraction, .backup, .stopApp, .clearDir, .install, .deps],
      backupProduced := backupAttempted i,
      remainingBackups := remainingAfterBackup i, warnings := backupWarns i }
  else
    match i.supervisorMatch with
    | none =>
      -- line 373: no supervisor matched — warning only, run continues
      { outcome := .success, exitCode := 0, tempDirRemoved := true,
        stages := allStages, backupProduced := backupAttempted i,
        remainingBackups := remainingAfterBackup i,
        warnings := postInstallWarns i ++ [noSupervisorWarning] ++ healthWarns i }
    | some _ =>
      -- lines 352/357/359/366/370: the matched supervisor's command is
      -- unguarded, so its failure hits `set -e`/`trap ERR` and aborts
      if i.supervisorOk = false then
        { outcome := .failedAt .restart, exitCode := 1, tempDirRemoved := true,
          stages := [.argCheck, .download, .sizeCheck, .typeCheck,
                     .integrityCheck, .extraction, .backup, .stopApp,
                     .clearDir, .install, .deps, .migrate, .restart],
          backupProduced := backupAttempted i,
          remainingBackups := remainingAfterBackup i,
          warnings := postInstallWarns i }
      else
        { outcome := .success, exitCode := 0, tempDirRemoved := true,
          stages := allStages, backupProduced := backupAttempted i,
          remainingBackups := remainingAfterBackup i,
          warnings := postInstallWarns i ++ healthWarns i }

/-- A fully successful run's inputs, used to instantiate theorems at
concrete values: every external tool present and succeeding, a 2 KiB
gzip file, a non-empty live directory, six prior backups. -/
def okInput : RunInput :=
  { request := ⟨"https://api.github.com/repos/o/r/tarball/v1.0.0", "v1.0.0"⟩
    transportAvailable := true
    downloadOk := true
    fileBytes := 0x1f :: 0x8b :: List.replicate 2046 0
    fileTypeDesc := "gzip compressed data, from Unix, original size modulo 2^32 10240"
    gzipAvailable := true
    gzipTestOk := true
    tarOk := true
    extractedEntries := [⟨"index.js", false⟩, ⟨"package.json", false⟩]
    liveDirEmpty := false
    backupOk := true
    backupTimestamp := 100
    priorBackups := [99, 98, 97, 96, 95, 94]
    copyOk := true
    hasPackageJson := true
    npmOk := true
    hasMigrateScript := false
    migrateOk := true
    supervisorMatch := some .pm2
    supervisorOk := true
    healthOk := true }

/-- Content of an xz archive: the xz magic `FD 37 7A 58 5A 00`, padded
past the 1024-byte minimum. The gzip signature (1f 8b) is absent. -/
def xzFileBytes : List Nat :=
  0xFD :: 0x37 :: 0x7A :: 0x58 :: 0x5A :: 0x00 :: List.replicate 1200 0

/-- A run handed an xz archive: `file -b` reports "XZ compressed data",
and `gzip -t` (gzip being installed) rejects the file. -/
def xzRunInput : RunInput :=
  { okInput with
    fileBytes := xzFileBytes
    fileTypeDesc := "XZ compressed data, checksum CRC64"
    gzipAvailable := true
    gzipTestOk := false }

/-- A run whose download is a 2 KiB HTML error page: `file -b` reports a
description containing neither "gzip" nor "compressed". -/
def htmlRunInput : RunInput :=
  { okInput with
    fileBytes := List.replicate 2048 60
    fileTypeDesc := "HTML document, ASCII text" }

/-! ## Helper lemmas -/

/-- The newest-first backup listing is sorted descending. -/
theorem lsByTimeDesc_sorted (l : List Nat) : (lsByTimeDesc l).Sorted (· ≥ ·) :=
  List.sorted_insertionSort (α := Nat) (· ≥ ·) l

/-- The newest-first listing is a permutation of the input. -/
theorem lsByTimeDesc_perm (l : List Nat) : (lsByTimeDesc l).Perm l :=
  List.perm_insertionSort (α := Nat) (· ≥ ·) l

/-- Every kept backup is at least as recent as every removed one. -/
theorem removed_le_kept {l : List Nat} {x y : Nat}
    (hx : x ∈ keptBackups l) (hy : y ∈ removedBackups l) : y ≤ x :=
  (lsByTimeDesc_sorted l).rel_of_mem_take_of_mem_drop hx hy

/-- At most five backups are kept. -/
theorem keptBackups_length_le (l : List Nat) : (keptBackups l).length ≤ 5 := by
  simp [keptBackups]

/-- Kept and removed backups together are exactly the original archives. -/
theorem kept_append_removed_perm (l : List Nat) :
    (keptBackups l ++ removedBackups l).Perm l := by
  rw [keptBackups, removedBackups, List.take_append_drop]
  exact lsByTimeDesc_perm l

/-! ## Claims -/

/-- C2: for every run in which the fetched file is smaller than 1024
bytes, validation fails with the too-small error, the run terminates
with a non-zero status, and extraction is never attempted. -/
theorem too_small_aborts_before_extraction (i : RunInput)
    (hurl : i.request.artifactUrl ≠ "") (htag : i.request.releaseTag ≠ "")
    (htr : i.transportAvailable = true) (hdl : i.downloadOk = true)
    (hsize : i.fileBytes.length < 1024) :
    (runDeploy i).outcome = .failedAt .sizeCheck ∧
    (runDeploy i).exitCode ≠ 0 ∧
    Stage.extraction ∉ (runDeploy i).stages := by
  simp [runDeploy, hurl, htag, htr, hdl, hsize]

/-- Witness for C2: a 10-byte download fails the size check. -/
theorem too_small_aborts_before_extraction_witness :
    (runDeploy { okInput with fileBytes := List.replicate 10 60 }).outcome =
      .failedAt .sizeCheck :=
  (too_small_aborts_before_extraction { okInput with fileBytes := List.replicate 10 60 }
    (by decide) (by decide) rfl rfl (by simp)).1

/-- C5: for every terminal state of a run — success or any fatal error at
any stage — the scratch workspace (temp directory) no longer exists:
every abort path calls `cleanup` explicitly or via `trap ERR`/`trap EXIT`. -/
theorem scratch_removed_on_all_paths (i : RunInput) :
    (runDeploy i).tempDirRemoved = true := by
  unfold runDeploy
  repeat' split
  all_goals rfl

/-- C4: for every run in which the install copy step fails, the run
terminates with the install-copy error and a non-zero exit status, and
restart is never attempted; the scratch dir is still cleaned up. -/
theorem copy_failure_aborts_before_restart (i : RunInput)
    (hurl : i.request.artifactUrl ≠ "") (htag : i.request.releaseTag ≠ "")
    (htr : i.transportAvailable = true) (hdl : i.downloadOk = true)
    (hsize : ¬ i.fileBytes.length < 1024)
    (hsniff : typeSniffPasses i.fileTypeDesc = true)
    (hgz : ¬ (i.gzipAvailable = true ∧ i.gzipTestOk = false))
    (htar : i.tarOk = true)
    (hcopy : i.copyOk = false) :
    (runDeploy i).outcome = .failedAt .install ∧
    (runDeploy i).exitCode ≠ 0 ∧
    Stage.restart ∉ (runDeploy i).stages ∧
    (runDeploy i).tempDirRemoved = true := by
  simp [runDeploy, hurl, htag, htr, hdl, hsize, hsniff, hgz, htar, hcopy]

/-- Witness for C4: a run whose `cp -r` fails aborts at install. -/
theorem copy_failure_aborts_before_restart_witness :
    (runDeploy { okInput with copyOk := false }).outcome = .failedAt .install :=
  (copy_failure_aborts_before_restart { okInput with copyOk := false }
    (by decide) (by decide) rfl rfl (by simp [okInput])
    (by decide) (by decide) rfl rfl).1

/-- C10: the gzip integrity test runs only when gzip is installed. When
gzip is absent, a file that passed the size and sniff checks proceeds to
extraction with no integrity verification at all (even if `gzip -t`
would have rejected it); when gzip is present, a failing `gzip -t`
aborts before extraction. -/
theorem integrity_check_only_when_gzip_available (i : RunInput)
    (hurl : i.request.artifactUrl ≠ "") (htag : i.request.releaseTag ≠ "")
    (htr : i.transportAvailable = true) (hdl : i.downloadOk = true)
    (hsize : ¬ i.fileBytes.length < 1024)
    (hsniff : typeSniffPasses i.fileTypeDesc = true) :
    (i.gzipAvailable = false →
       (runDeploy i).outcome ≠ .failedAt .integrityCheck ∧
       Stage.extraction ∈ (runDeploy i).stages) ∧
    (i.gzipAvailable = true → i.gzipTestOk = false →
       (runDeploy i).outcome = .failedAt .integrityCheck ∧
       Stage.extraction ∉ (runDeploy i).stages) := by
  constructor
  · intro hgz
    have hcond : ¬ (i.gzipAvailable = true ∧ i.gzipTestOk = false) := by
      simp [hgz]
    refine ⟨?_, ?_⟩ <;>
    · simp only [runDeploy]
      rw [if_neg (by simp [hurl, htag]), if_neg (by simp [htr, hdl]), if_neg hsize,
          if_neg (by simp [hsniff]), if_neg hcond]
      repeat' split
      all_goals simp [allStages]
  · intro hgz hok
    simp [runDeploy, hurl, htag, htr, hdl, hsize, hsniff, hgz, hok]

/-- Witness for C10: with gzip absent and a file `gzip -t` would reject,
the run still reaches extraction. -/
theorem integrity_check_only_when_gzip_available_witness :
    Stage.extraction ∈
      (runDeploy { okInput with gzipAvailable := false, gzipTestOk := false }).stages :=
  ((integrity_check_only_when_gzip_available
      { okInput with gzipAvailable := false, gzipTestOk := false }
      (by decide) (by decide) rfl rfl (by simp [okInput]) (by decide)).1 rfl).2

/-- C8: when install (and the npm step) succeeded but no supervisor
capability matches at start time, the run still terminates with exit
status 0 and Success, and the manual-start warning is logged. -/
theorem no_supervisor_is_success_with_warning (i : RunInput)
    (hurl : i.request.artifactUrl ≠ "") (htag : i.request.releaseTag ≠ "")
    (htr : i.transportAvailable = true) (hdl : i.downloadOk = true)
    (hsize : ¬ i.fileBytes.length < 1024)
    (hsniff : typeSniffPasses i.fileTypeDesc = true)
    (hgz : ¬ (i.gzipAvailable = true ∧ i.gzipTestOk = false))
    (htar : i.tarOk = true)
    (hcopy : i.copyOk = true)
    (hnpm : ¬ (i.hasPackageJson = true ∧ i.npmOk = false))
    (hsup : i.supervisorMatch = none) :
    (runDeploy i).outcome = .success ∧
    (runDeploy i).exitCode = 0 ∧
    noSupervisorWarning ∈ (runDeploy i).warnings := by
  simp [runDeploy, hurl, htag, htr, hdl, hsize, hsniff, hgz, htar, hcopy, hnpm, hsup]

/-- Witness for C8: a run with no matching supervisor exits 0. -/
theorem no_supervisor_is_success_with_warning_witness :
    (runDeploy { okInput with supervisorMatch := none }).exitCode = 0 :=
  (no_supervisor_is_success_with_warning { okInput with supervisorMatch := none }
    (by decide) (by decide) rfl rfl (by simp [okInput])
    (by decide) (by decide) rfl rfl (by decide) rfl).2.1

/-- Helper: whenever a run produces a backup, the archives remaining in
the backup directory are the pruned listing of the new archive plus the
prior ones. -/
theorem runDeploy_remaining_of_backup {i : RunInput}
    (h : (runDeploy i).backupProduced = true) :
    (runDeploy i).remainingBackups = keptBackups (i.backupTimestamp :: i.priorBackups) := by
  revert h
  unfold runDeploy
  repeat' split
  all_goals intro h
  all_goals simp_all [remainingAfterBackup]

/-- C6: after every run that creates a backup, at most five backup
archives remain; they are the first five of the newest-first listing of
the new archive plus the prior ones; every retained archive is at least
as recent as every pruned one; and retained plus pruned together are
exactly the archives present after creation. -/
theorem backup_rotation_invariant (i : RunInput)
    (h : (runDeploy i).backupProduced = true) :
    (runDeploy i).remainingBackups = keptBackups (i.backupTimestamp :: i.priorBackups) ∧
    (runDeploy i).remainingBackups.length ≤ 5 ∧
    (∀ x ∈ (runDeploy i).remainingBackups,
       ∀ y ∈ removedBackups (i.backupTimestamp :: i.priorBackups), y ≤ x) ∧
    ((runDeploy i).remainingBackups ++
        removedBackups (i.backupTimestamp :: i.priorBackups)).Perm
      (i.backupTimestamp :: i.priorBackups) := by
  have hrb := runDeploy_remaining_of_backup h
  refine ⟨hrb, ?_, ?_, ?_⟩
  · rw [hrb]; exact keptBackups_length_le _
  · intro x hx y hy
    rw [hrb] at hx
    exact removed_le_kept hx hy
  · rw [hrb]; exact kept_append_removed_perm _

/-- Witness for C6: a successful run against six prior backups leaves at
most five archives. -/
theorem backup_rotation_invariant_witness :
    (runDeploy okInput).remainingBackups.length ≤ 5 :=
  (backup_rotation_invariant okInput (by
    have hs : typeSniffPasses
        "gzip compressed data, from Unix, original size modulo 2^32 10240" = true := by
      decide
    simp [runDeploy, okInput, backupAttempted, hs])).2.1

/-- C7: when the live directory is empty the backup step is a no-op (no
archive produced, backup directory untouched); and a failing backup is
only a warning — the run still proceeds to the stop and install stages. -/
theorem backup_noop_or_warning_only (i : RunInput)
    (hurl : i.request.artifactUrl ≠ "") (htag : i.request.releaseTag ≠ "")
    (htr : i.transportAvailable = true) (hdl : i.downloadOk = true)
    (hsize : ¬ i.fileBytes.length < 1024)
    (hsniff : typeSniffPasses i.fileTypeDesc = true)
    (hgz : ¬ (i.gzipAvailable = true ∧ i.gzipTestOk = false))
    (htar : i.tarOk = true) :
    (i.liveDirEmpty = true →
       (runDeploy i).backupProduced = false ∧
       (runDeploy i).remainingBackups = i.priorBackups) ∧
    (i.liveDirEmpty = false → i.backupOk = false →
       backupWarning ∈ (runDeploy i).warnings ∧
       (runDeploy i).outcome ≠ .failedAt .backup ∧
       Stage.stopApp ∈ (runDeploy i).stages ∧
       Stage.install ∈ (runDeploy i).stages) := by
  constructor
  · intro hl
    simp only [runDeploy]
    rw [if_neg (by simp [hurl, htag]), if_neg (by simp [htr, hdl]), if_neg hsize,
        if_neg (by simp [hsniff]), if_neg hgz, if_neg (by simp [htar])]
    repeat' split
    all_goals simp [backupAttempted, remainingAfterBackup, hl]
  · intro hl hb
    simp only [runDeploy]
    rw [if_neg (by simp [hurl, htag]), if_neg (by simp [htr, hdl]), if_neg hsize,
        if_neg (by simp [hsniff]), if_neg hgz, if_neg (by simp [htar])]
    repeat' split
    all_goals
      simp [backupAttempted, backupWarns, postInstallWarns, allStages, hl, hb]

/-- Witness for C7: a failing backup only logs the warning; the run goes
on to the install stage. -/
theorem backup_noop_or_warning_only_witness :
    backupWarning ∈ (runDeploy { okInput with backupOk := false }).warnings :=
  ((backup_noop_or_warning_only { okInput with backupOk := false }
      (by decide) (by decide) rfl rfl (by simp [okInput])
      (by decide) (by decide) rfl).2 rfl rfl).1

/-- C1 counterexample: the newer script never unwraps a sole top-level
directory (the resolved root stays the extraction destination), and the
older script resolves a multi-entry extraction to its first top-level
directory, not to the extraction directory itself. -/
theorem content_root_counterexample :
    resolvedContentRootNew "/tmp/deploy-local-chat/extracted"
        [⟨"rishabhrpg-homelab-updator-0abc123", true⟩] ≠
      "/tmp/deploy-local-chat/extracted/rishabhrpg-homelab-updator-0abc123" ∧
    resolvedContentRootOld "/tmp/deploy-local-chat"
        [⟨"dirA", true⟩, ⟨"dirB", true⟩] ≠ some "/tmp/deploy-local-chat" := by
  decide

/-- C1 amended: the newer script's resolved content root is always the
extraction destination directory, whatever the destination contains; the
older script's is the first top-level directory under the temp dir — it
agrees with the claim when the sole entry is a directory, and reports
failure (no root) when no directory exists. -/
theorem content_root_resolution (dest tmp : String) (e : Entry) (es : List Entry) :
    resolvedContentRootNew dest es = dest ∧
    (e.isDir = true →
       resolvedContentRootOld tmp (e :: es) = some (tmp ++ "/" ++ e.name)) ∧
    (e.isDir = true →
       resolvedContentRootOld tmp [e] = some (resolvedContentRootSpec tmp [e])) ∧
    (es.filter (·.isDir) = [] → resolvedContentRootOld tmp es = none) := by
  refine ⟨rfl, ?_, ?_, ?_⟩
  · intro h
    simp [resolvedContentRootOld, h]
  · intro h
    simp [resolvedContentRootOld, resolvedContentRootSpec, h]
  · intro h
    simp [resolvedContentRootOld, h]

/-- Witness for C1 (amended): the older script unwraps a single wrapping
directory as source-forge tarballs need. -/
theorem content_root_resolution_witness :
    resolvedContentRootOld "/tmp/deploy-local-chat" [⟨"wrap", true⟩] =
      some (resolvedContentRootSpec "/tmp/deploy-local-chat" [⟨"wrap", true⟩]) :=
  (content_root_resolution "/tmp/deploy-local-chat/extracted" "/tmp/deploy-local-chat"
    ⟨"wrap", true⟩ []).2.2.1 rfl

/-- C3 counterexample: an xz archive — whose content signature is not the
gzip signature — still passes the type sniff, because its `file`
description ("XZ compressed data ...") contains "compressed"; the run
does not fail with the wrong-type error (with gzip installed it fails at
the integrity check instead). -/
theorem type_sniff_counterexample :
    isGzipSignature xzFileBytes = false ∧
    typeSniffPasses "XZ compressed data, checksum CRC64" = true ∧
    (runDeploy xzRunInput).outcome = .failedAt .integrityCheck ∧
    (runDeploy xzRunInput).outcome ≠ .failedAt .typeCheck := by
  refine ⟨rfl, by decide, ?_, ?_⟩ <;>
  · have hs : typeSniffPasses "XZ compressed data, checksum CRC64" = true := by decide
    simp [runDeploy, xzRunInput, okInput, xzFileBytes, hs]

/-- C3 amended: for every run reaching the type check, validation fails
with the wrong-type error exactly when the `file`-derived content
description contains neither "gzip" nor "compressed" (case-insensitive)
— a content-based decision that never consults the URL or file name, but
one that also admits non-gzip compressed formats; when it fails, the run
exits non-zero before extraction. -/
theorem type_check_iff_sniff_fails (i : RunInput)
    (hurl : i.request.artifactUrl ≠ "") (htag : i.request.releaseTag ≠ "")
    (htr : i.transportAvailable = true) (hdl : i.downloadOk = true)
    (hsize : ¬ i.fileBytes.length < 1024) :
    ((runDeploy i).outcome = .failedAt .typeCheck ↔
      typeSniffPasses i.fileTypeDesc = false) ∧
    (typeSniffPasses i.fileTypeDesc = false →
       (runDeploy i).exitCode ≠ 0 ∧ Stage.extraction ∉ (runDeploy i).stages) := by
  constructor
  · constructor
    · intro hout
      by_contra hs
      rw [Bool.not_eq_false] at hs
      revert hout
      simp only [runDeploy]
      rw [if_neg (by simp [hurl, htag]), if_neg (by simp [htr, hdl]), if_neg hsize,
          if_neg (by simp [hs])]
      repeat' split
      all_goals simp [allStages]
    · intro h
      simp [runDeploy, hurl, htag, htr, hdl, hsize, h]
  · intro h
    simp [runDeploy, hurl, htag, htr, hdl, hsize, h]

/-- Witness for C3 (amended): an HTML error page fails the sniff and the
run aborts before extraction. -/
theorem type_check_iff_sniff_fails_witness :
    (runDeploy htmlRunInput).exitCode ≠ 0 ∧
    Stage.extraction ∉ (runDeploy htmlRunInput).stages :=
  (type_check_iff_sniff_fails htmlRunInput
    (by decide) (by decide) rfl rfl (by simp [htmlRunInput, okInput])).2 (by decide)

/-- C9 counterexample: two distinct deployment requests (different
artifact URLs and tags) receive the same scratch workspace path — line
15 builds the path from the fixed app name alone, so runs do not own
uniquely-named workspaces. -/
theorem scratch_shared_counterexample :
    (⟨"https://api.github.com/repos/o/r/tarball/v1", "v1"⟩ : DeploymentRequest) ≠
      ⟨"https://api.github.com/repos/o/r/tarball/v2", "v2"⟩ ∧
    scratchRoot APP_NAME ⟨"https://api.github.com/repos/o/r/tarball/v1", "v1"⟩ =
      scratchRoot APP_NAME ⟨"https://api.github.com/repos/o/r/tarball/v2", "v2"⟩ := by
  decide

/-- C9 amended: the scratch workspace path is the fixed per-application
constant `/tmp/deploy-<app>`: two runs' scratch paths coincide exactly
when their application names coincide, so all runs for the same
application (the script hard-codes a single one) share one workspace
path, and only runs for different applications have disjoint ones. -/
theorem scratch_root_fixed_per_app (a1 a2 : String) (r1 r2 : DeploymentRequest) :
    scratchRoot a1 r1 = scratchRoot a2 r2 ↔ a1 = a2 := by
  constructor
  · intro h
    simp only [scratchRoot, TEMP_DIR] at h
    have hd : ("/tmp/deploy-" ++ a1).data = ("/tmp/deploy-" ++ a2).data :=
      congrArg String.data h
    simp only [String.data_append] at hd
    exact String.ext (List.append_cancel_left hd)
  · intro h
    simp only [scratchRoot, TEMP_DIR, h]

/-- Witness for C9 (amended): two different requests for the same app
name share the scratch path. -/
theorem scratch_root_fixed_per_app_witness :
    scratchRoot "local-chat" ⟨"u1", "t1"⟩ = scratchRoot "local-chat" ⟨"u2", "t2"⟩ :=
  (scratch_root_fixed_per_app "local-chat" "local-chat" ⟨"u1", "t1"⟩ ⟨"u2", "t2"⟩).mpr rfl

end HomelabUpdator
